import Mathlib

/-!
Verification development for the RippleOscilloscope repository.

The repository has two variants of the audio analyzer:
`src/web/js/main.js` (class `AudioAnalyzer`, merged inline) and
`src/unnamed/part_000` (exported class `AudioAnalyzer`), plus two
shader variants: `src/shaders/wave.wgsl` and the inline WGSL string
returned by `getInlineShader()` in `main.js`.

JavaScript numbers are modelled as rationals (`ℚ`) except where the
source applies `Math.pow` with a fractional exponent, which is modelled
over the reals.  A JavaScript division whose divisor can be `0`
produces `NaN`; such results are modelled as `Option` values with
`none` standing for `NaN` (every JS arithmetic operation propagates
`NaN`, matching `Option.map`).
-/

namespace RippleOsc

/-- `Math.max(0, Math.min(1, x))` — the clamp-to-`[0,1]` idiom used
throughout both analyzer variants. -/
def clamp01 (x : ℚ) : ℚ := max 0 (min 1 x)

/-- Guarded division: JS `a / b` yields `NaN` (here `none`) when `b = 0`. -/
def jsDiv (a b : ℚ) : Option ℚ := if b = 0 then none else some (a / b)

/-- State of an `AudioAnalyzer` instance as far as the feature getters
read it: the `isActive` flag and the current `frequencyData` contents
(decibel magnitudes). -/
structure AnalyzerState where
  isActive : Bool
  frequencyData : List ℚ

/-- `(data[j] + 100) / 100` followed by the clamp — the per-bin
normalization used by `getFrequencyBands` (both variants),
`getFrequencyRanges` (part_000), and part_000's `getAmplitude`. -/
def normalizedBin (m : ℚ) : ℚ := clamp01 ((m + 100) / 100)

/-- `(data[i] + 90) / 60` followed by the clamp — the per-bin
normalization used by `main.js`'s `getAmplitude`. -/
def normalizedBinMain (m : ℚ) : ℚ := clamp01 ((m + 90) / 60)

/-- `AudioAnalyzer.getAmplitude` from `src/unnamed/part_000` lines
135–145: inactive ⇒ `0`; otherwise sum the clamp-normalized bins,
divide by the bin count, and clamp the average with `Math.min(1, ·)`. -/
def getAmplitude (s : AnalyzerState) : Option ℚ :=
  if s.isActive = false then some 0
  else (jsDiv ((s.frequencyData.map normalizedBin).sum) s.frequencyData.length).map
    (fun avg => min 1 avg)

/-- `AudioAnalyzer.getAmplitude` from `src/web/js/main.js` lines 86–96:
inactive ⇒ `0`; otherwise average the `(d+90)/60` clamp-normalized bins
and apply `Math.pow(avg, 0.8) * 1.5`. -/
noncomputable def getAmplitudeMain (s : AnalyzerState) : Option ℝ :=
  if s.isActive = false then some 0
  else (jsDiv ((s.frequencyData.map normalizedBinMain).sum) s.frequencyData.length).map
    (fun avg => ((avg : ℝ) ^ (0.8 : ℝ)) * 1.5)

/-- The index windows `[start, end)` used by `getFrequencyBands` for a
frame of length `len` and `numBands` bands (`main.js` lines 102–105 =
`part_000` lines 159–163): `samplesPerBand = Math.floor(len / numBands)`,
`start = i * samplesPerBand`, `end = Math.min((i+1) * samplesPerBand, len)`. -/
def bandWindows (len numBands : ℕ) : List (ℕ × ℕ) :=
  (List.range numBands).map
    (fun i => (i * (len / numBands), min ((i + 1) * (len / numBands)) len))

/-- Concatenation of the index ranges of all windows of
`bandWindows len numBands`, in order. -/
def windowIndices (len numBands : ℕ) : List ℕ :=
  (bandWindows len numBands).flatMap (fun w => List.range' w.1 (w.2 - w.1))

/-- Average of the clamp-normalized bins of one window `[start, end)`
of `data`: `sum / (end - start)`, `NaN` (`none`) when the window is
empty (`main.js` lines 106–111). -/
def bandValue (data : List ℚ) (w : ℕ × ℕ) : Option ℚ :=
  jsDiv (((data.drop w.1).take (w.2 - w.1)).map normalizedBin).sum (w.2 - w.1)

/-- `AudioAnalyzer.getFrequencyBands` (identical in `main.js` lines
98–114 and `part_000` lines 152–175): inactive ⇒
`new Array(numBands).fill(0.1)`; otherwise one averaged value per
window. -/
def getFrequencyBands (s : AnalyzerState) (numBands : ℕ) : List (Option ℚ) :=
  if s.isActive = false then List.replicate numBands (some (1 / 10))
  else (bandWindows s.frequencyData.length numBands).map (bandValue s.frequencyData)

/-- The `normalize` helper of `getFrequencyRanges` (`part_000` lines
189–195): average of the clamp-normalized entries of a slice. -/
def rangeNormalize (arr : List ℚ) : Option ℚ :=
  jsDiv ((arr.map normalizedBin).sum) arr.length

/-- `AudioAnalyzer.getFrequencyRanges` from `src/unnamed/part_000`
lines 181–202: inactive ⇒ `{bass: 0, mid: 0, treble: 0}`; otherwise the
three slices `[0, third)`, `[third, 2·third)`, `[2·third, len)` with
`third = Math.floor(len / 3)`, each averaged by `normalize`. -/
def getFrequencyRanges (s : AnalyzerState) : Option ℚ × Option ℚ × Option ℚ :=
  if s.isActive = false then (some 0, some 0, some 0)
  else
    (rangeNormalize (s.frequencyData.take (s.frequencyData.length / 3)),
     rangeNormalize ((s.frequencyData.drop (s.frequencyData.length / 3)).take
       (s.frequencyData.length / 3)),
     rangeNormalize (s.frequencyData.drop (2 * (s.frequencyData.length / 3))))

end RippleOsc

namespace RippleOsc

/-- The visualizer's `params` object (`main.js` lines 337–343).  The
`mode` field is a plain JS number like the others. -/
structure Params where
  amplitude : ℚ
  frequency : ℚ
  speed : ℚ
  hue : ℚ
  mode : ℚ

/-- Initial `params` (`main.js` lines 337–343): amplitude 1.0,
frequency 3.0, speed 1.0, hue 180.0, mode 0. -/
def initParams : Params := ⟨1, 3, 1, 180, 0⟩

/-- `setMode(mode) { this.params.mode = mode; }` (`main.js` line 386). -/
def setMode (p : Params) (v : ℚ) : Params := { p with mode := v }

/-- `setAmplitude(val) { this.params.amplitude = val; }` (line 387). -/
def setAmplitude (p : Params) (v : ℚ) : Params := { p with amplitude := v }

/-- `setFrequency(val) { this.params.frequency = val; }` (line 388). -/
def setFrequency (p : Params) (v : ℚ) : Params := { p with frequency := v }

/-- `setSpeed(val) { this.params.speed = val; }` (line 389). -/
def setSpeed (p : Params) (v : ℚ) : Params := { p with speed := v }

/-- `setHue(val) { this.params.hue = val; }` (line 390). -/
def setHue (p : Params) (v : ℚ) : Params := { p with hue := v }

end RippleOsc

namespace RippleOsc

/-- `effectiveAmp = this.params.amplitude * (0.5 + audioAmp * 1.5)`
(`main.js` line 350). -/
def effectiveAmp (amplitude audioAmp : ℚ) : ℚ := amplitude * (0.5 + audioAmp * 1.5)

end RippleOsc

namespace RippleOsc

/-- Scalar type of one serialized uniform field. -/
inductive FieldKind where
  | f32
  | u32
deriving DecidableEq

/-- The per-frame uniform values in serialization order (`main.js`
lines 353–362): `time, effectiveAmp, frequency, speed, resolution.x,
resolution.y, hue, mode`. -/
def uniformValues (time eff freq speed resx resy hue mode : ℚ) : List ℚ :=
  [time, eff, freq, speed, resx, resy, hue, mode]

/-- The scalar kinds actually written by `main.js`: the payload is a
`new Float32Array([...])` of 8 entries (lines 353–362), so every field
— including `mode` — is serialized as `f32`.  (The inline shader reads
`mode: f32` and converts with `u32(mode + 0.1)`.) -/
def uniformKinds : List FieldKind := List.replicate 8 FieldKind.f32

/-- `device.createBuffer({ size: 32, ... })` (`main.js` line 261). -/
def uniformBufferSize : ℕ := 32

/-- Bytes per serialized scalar (f32 and u32 are both 4 bytes). -/
def bytesPerScalar : ℕ := 4

/-- The field kinds as the spec's §3 `UniformPayload` layout states
them: seven `f32` fields and a final `u32` mode.  (Stated from the
spec's words, for comparison with `uniformKinds`; `wave.wgsl` line 12
declares `mode: u32` but that shader file is never loaded — `main.js`
uses `getInlineShader()`, whose `Uniforms` struct has `mode: f32`.) -/
def specUniformKinds : List FieldKind :=
  [FieldKind.f32, FieldKind.f32, FieldKind.f32, FieldKind.f32,
   FieldKind.f32, FieldKind.f32, FieldKind.f32, FieldKind.u32]

end RippleOsc

namespace Wgsl

/-- WGSL `length(v)` for a 2-vector. -/
noncomputable def vlength (v : ℝ × ℝ) : ℝ := Real.sqrt (v.1 ^ 2 + v.2 ^ 2)

/-- WGSL `mix(a, b, u) = a * (1 - u) + b * u`. -/
def mix (a b u : ℝ) : ℝ := a * (1 - u) + b * u

/-- WGSL `fract(x) = x - floor(x)`. -/
noncomputable def fract (x : ℝ) : ℝ := x - ⌊x⌋

/-- `noise` from `wave.wgsl` lines 69–71:
`fract(sin(dot(p, (12.9898, 78.233))) * 43758.5453)`. -/
noncomputable def noise (p : ℝ × ℝ) : ℝ :=
  fract (Real.sin (p.1 * 12.9898 + p.2 * 78.233) * 43758.5453)

/-- `smooth_noise` from `wave.wgsl` lines 74–85: bilinear value-noise
interpolation with the smoothstep weight `u = f·f·(3 − 2·f)`. -/
noncomputable def smooth_noise (p : ℝ × ℝ) : ℝ :=
  mix (mix (noise (⌊p.1⌋, ⌊p.2⌋)) (noise ((⌊p.1⌋ : ℝ) + 1, ⌊p.2⌋))
        (fract p.1 * fract p.1 * (3 - 2 * fract p.1)))
      (mix (noise (⌊p.1⌋, (⌊p.2⌋ : ℝ) + 1)) (noise ((⌊p.1⌋ : ℝ) + 1, (⌊p.2⌋ : ℝ) + 1))
        (fract p.1 * fract p.1 * (3 - 2 * fract p.1)))
      (fract p.2 * fract p.2 * (3 - 2 * fract p.2))

/-- The loop body of `fbm` (`wave.wgsl` lines 88–100): octave recursion
with the running amplitude and position. -/
noncomputable def fbmGo : ℕ → ℝ → (ℝ × ℝ) → ℝ
  | 0, _, _ => 0
  | n + 1, amp, pos => amp * smooth_noise pos + fbmGo n (amp * 0.5) (pos.1 * 2, pos.2 * 2)

/-- `fbm` from `wave.wgsl`: 4 octaves, starting amplitude `0.5`,
frequency doubling and amplitude halving per octave. -/
noncomputable def fbm (p : ℝ × ℝ) : ℝ := fbmGo 4 0.5 p

/-- `sine_waves` (`wave.wgsl` lines 105–119, mode 0). -/
noncomputable def sine_waves (uv : ℝ × ℝ) (t freq amp : ℝ) : ℝ :=
  (Real.sin (uv.1 * freq * 3 + t * 2) * 0.4
    + Real.sin (uv.1 * freq * 5 - t * 1.5) * 0.3
    + Real.sin (uv.1 * freq * 7 + t * 2.5) * 0.2
    + Real.sin (uv.1 * freq * 11 - t * 3) * 0.1
    + Real.sin (uv.2 * freq * 2 + t) * 0.15) * amp

/-- `circular_ripples` (`wave.wgsl` lines 122–140, mode 1). -/
noncomputable def circular_ripples (uv : ℝ × ℝ) (t freq amp : ℝ) : ℝ :=
  (Real.sin (vlength uv * freq * 10 - t * 3) * Real.exp (-(vlength uv) * 0.5)
    + Real.sin (vlength (uv.1 - 0.5, uv.2 - 0.3) * freq * 8 - t * 2.5) * 0.5
        * Real.exp (-(vlength (uv.1 - 0.5, uv.2 - 0.3)) * 0.7)
    + Real.sin (vlength (uv.1 + 0.4, uv.2 - 0.2) * freq * 9 - t * 2.8) * 0.3
        * Real.exp (-(vlength (uv.1 + 0.4, uv.2 - 0.2)) * 0.6)) * amp

/-- `lissajous_curves` (`wave.wgsl` lines 143–162, mode 2). -/
noncomputable def lissajous_curves (uv : ℝ × ℝ) (t freq amp : ℝ) : ℝ :=
  (Real.sin (3 * freq * uv.1 + t) * Real.sin (2 * freq * uv.2 + t * 0.5)
    + Real.sin (3 * freq * 1.5 * uv.1 - t * 1.2)
        * Real.cos (2 * freq * 1.3 * uv.2 + t * 0.5 * 0.8) * 0.5) * amp

/-- `plasma_field` (`wave.wgsl` lines 165–183, mode 3). -/
noncomputable def plasma_field (uv : ℝ × ℝ) (t freq amp : ℝ) : ℝ :=
  (Real.sin (uv.1 * freq + t) + Real.sin (uv.2 * freq + t)
    + Real.sin (uv.1 * freq + uv.2 * freq + t)
    + Real.sin (vlength (uv.1 * freq, uv.2 * freq) - t * 2)
    + fbm (uv.1 * freq * 0.5 + t * 0.3, uv.2 * freq * 0.5 + t * 0.3) * 2)
    * 0.2 * amp

/-- `wave_surface` (`wave.wgsl` lines 186–202, mode 4): the perspective
factor `1 / (1 + uv.y * 0.5)` scales `x` before the frequency scaling
and scales the result. -/
noncomputable def wave_surface (uv : ℝ × ℝ) (t freq amp : ℝ) : ℝ :=
  (Real.sin (uv.1 * (1 / (1 + uv.2 * 0.5)) * freq * 3 + t * 2)
        * Real.cos (uv.2 * freq * 2 + t)
    + Real.sin (uv.1 * (1 / (1 + uv.2 * 0.5)) * freq * 5 - uv.2 * freq * 3 + t * 1.5)
        * 0.5
    + Real.sin ((uv.1 * (1 / (1 + uv.2 * 0.5)) * freq + uv.2 * freq) * 2 + t * 0.8)
        * 0.3) * amp * (1 / (1 + uv.2 * 0.5))

/-- The mode dispatch of `fs_main` in `wave.wgsl` lines 226–245: cases
`0u`–`4u`, and an explicit `default` that evaluates `sine_waves`. -/
noncomputable def fsMainWave (mode : ℕ) (uv : ℝ × ℝ) (t freq amp : ℝ) : ℝ :=
  match mode with
  | 0 => sine_waves uv t freq amp
  | 1 => circular_ripples uv t freq amp
  | 2 => lissajous_curves uv t freq amp
  | 3 => plasma_field uv t freq amp
  | 4 => wave_surface uv t freq amp
  | _ => sine_waves uv t freq amp

end Wgsl

namespace InlineShader

/-- The mode dispatch of `fs_main` in the inline shader string
(`main.js` lines 456–482), before the trailing `wave *= amplitude`:
cases `0u`–`3u` only; the `default` branch carries the Surface
formula (mode 4 itself is reached through `default`).  The `u32`
scrutinee is `u32(uniforms.mode + 0.1)`. -/
noncomputable def waveFor (mode : ℕ) (uv : ℝ × ℝ) (t freq : ℝ) : ℝ :=
  match mode with
  | 0 => Real.sin (uv.1 * freq * 3 + t * 2) * 0.4
      + Real.sin (uv.1 * freq * 5 - t * 1.5) * 0.3
      + Real.sin (uv.1 * freq * 7 + t * 2.5) * 0.2
  | 1 => Real.sin (Wgsl.vlength uv * freq * 10 - t * 3)
      * Real.exp (-(Wgsl.vlength uv) * 0.5)
  | 2 => Real.sin (uv.1 * freq + t) * Real.cos (uv.1 * freq * 0.5 - t * 1.5) * 0.8
      + Real.sin (uv.1 * freq * 2 + t) * 0.2
  | 3 => (Real.sin (uv.1 * freq + t) + Real.sin (uv.2 * freq + t)
      + Real.sin ((uv.1 + uv.2) * freq + t)
      + Real.sin (Wgsl.vlength (uv.1 * freq, uv.2 * freq) - t * 2)) * 0.25
  | _ => Real.sin (uv.1 * freq * 3 + t * 2) * Real.cos (uv.2 * freq * 2 + t)

/-- The inline shader's per-pixel wave scalar including the trailing
`wave *= uniforms.amplitude` (`main.js` line 483). -/
noncomputable def fsWave (mode : ℕ) (uv : ℝ × ℝ) (t freq amp : ℝ) : ℝ :=
  waveFor mode uv t freq * amp

/-- The `u32(uniforms.mode + 0.1)` conversion (`main.js` line 457): the
`f32` mode uniform, nudged by `0.1` and truncated toward zero (negative
values saturate to `0`). -/
def modeIndex (m : ℚ) : ℕ := ⌊m + 0.1⌋₊

end InlineShader

namespace RippleOsc

/-- Window `i` of `bandWindows len n` collapses to
`(i·spb, (i+1)·spb)`: the `min` never truncates, because
`(i+1)·spb ≤ n·spb ≤ len` for every `i < n`. -/
theorem bandWindows_eq (len n : ℕ) :
    bandWindows len n =
      (List.range n).map (fun i => (i * (len / n), (i + 1) * (len / n))) := by
  unfold bandWindows
  apply List.map_congr_left
  intro i hi
  rw [List.mem_range] at hi
  have h1 : (i + 1) * (len / n) ≤ n * (len / n) :=
    Nat.mul_le_mul_right _ hi
  have h2 : n * (len / n) ≤ len := by
    rw [Nat.mul_comm]; exact Nat.div_mul_le_self len n
  simp [Nat.min_eq_left (le_trans h1 h2)]

/-- Concatenating `n` consecutive blocks of width `w` starting at
multiples of `w` yields `range (n·w)`. -/
theorem range_flatMap_blocks (n w : ℕ) :
    (List.range n).flatMap (fun i => List.range' (i * w) w) = List.range (n * w) := by
  induction n with
  | zero => simp
  | succ k ih =>
    rw [List.range_succ, List.flatMap_append, ih]
    simp [List.range'_eq_map_range, Nat.succ_mul, List.range_add]

/-- The concatenated window indices are exactly `range (n · ⌊len/n⌋)`
for every band count. -/
theorem windowIndices_eq (len n : ℕ) :
    windowIndices len n = List.range (n * (len / n)) := by
  unfold windowIndices
  rw [bandWindows_eq, List.flatMap_map]
  have h : (fun i => List.range' (i * (len / n), (i + 1) * (len / n)).1
      ((i * (len / n), (i + 1) * (len / n)).2 - (i * (len / n), (i + 1) * (len / n)).1))
      = fun i => List.range' (i * (len / n)) (len / n) := by
    funext i
    simp [Nat.succ_mul]
  rw [h, range_flatMap_blocks]

theorem clamp01_nonneg (x : ℚ) : 0 ≤ clamp01 x := le_max_left 0 (min 1 x)

theorem clamp01_le_one (x : ℚ) : clamp01 x ≤ 1 :=
  max_le (by norm_num) (min_le_left 1 x)

/-- A sum of clamp-normalized bins lies between `0` and the number of
bins. -/
theorem sum_clamped_bounds (f : ℚ → ℚ) (h0 : ∀ m, 0 ≤ f m) (h1 : ∀ m, f m ≤ 1)
    (l : List ℚ) : 0 ≤ (l.map f).sum ∧ (l.map f).sum ≤ (l.length : ℚ) := by
  constructor
  · refine List.sum_nonneg ?_
    intro x hx
    rw [List.mem_map] at hx
    obtain ⟨m, _, rfl⟩ := hx
    exact h0 m
  · have h := List.sum_le_card_nsmul (l.map f) 1 ?_
    · simpa [nsmul_eq_mul] using h
    · intro x hx
      rw [List.mem_map] at hx
      obtain ⟨m, _, rfl⟩ := hx
      exact h1 m

end RippleOsc

/-- Claim C1 (corrected): for a frame of length `L ≥ 1` and a band
count `1 ≤ n ≤ L`, the `n` windows used by `bands(n)` are contiguous
and pairwise non-overlapping, and their concatenation, in order, covers
exactly the bin indices `0 .. n·⌊L/n⌋ − 1` — each exactly once.  When
`n` divides `L` this is all of `0 .. L−1`; otherwise the trailing
`L mod n` bins are left uncovered (the last window does NOT absorb the
remainder). -/
theorem bands_windows_cover (len n : ℕ) (_hn : 1 ≤ n) (_hnL : n ≤ len) :
    RippleOsc.windowIndices len n = List.range (n * (len / n)) ∧
      (len % n = 0 → RippleOsc.windowIndices len n = List.range len) := by
  refine ⟨RippleOsc.windowIndices_eq len n, fun h => ?_⟩
  rw [RippleOsc.windowIndices_eq len n,
    Nat.mul_div_cancel' (Nat.dvd_of_mod_eq_zero h)]

/-- Witness for C1's theorem at `L = 8`, `n = 4`. -/
theorem bands_windows_cover_witness :
    RippleOsc.windowIndices 8 4 = List.range (4 * (8 / 4)) ∧
      (8 % 4 = 0 → RippleOsc.windowIndices 8 4 = List.range 8) :=
  bands_windows_cover 8 4 (by decide) (by decide)

/-- Claim C1 counterexample: at `L = 8`, `n = 3` (which satisfies
`1 ≤ n ≤ L`), the windows are `[0,2), [2,4), [4,6)`; bins 6 and 7 are
covered by no window, so the concatenation is `[0..5]`, not `[0..7]` —
the last window does not absorb the remainder. -/
theorem bands_windows_cover_cex :
    RippleOsc.bandWindows 8 3 = [(0, 2), (2, 4), (4, 6)] ∧
      RippleOsc.windowIndices 8 3 = [0, 1, 2, 3, 4, 5] ∧
      RippleOsc.windowIndices 8 3 ≠ List.range 8 := by
  refine ⟨by decide, by decide, by decide⟩

/-- Claim C2 (corrected): with the analyzer active on a frame with at
least one bin, the `part_000` `getAmplitude` returns a value in
`[0,1]`; the `main.js` `getAmplitude` (`pow(avg,0.8) * 1.5`) returns a
value in `[0, 3/2]` (it is NOT bounded by 1); and for every band count
`n` with `1 ≤ n ≤ L`, every entry of `bands(n)` is a value in `[0,1]`. -/
theorem features_bounded (s : RippleOsc.AnalyzerState) (hA : s.isActive = true)
    (hL : 1 ≤ s.frequencyData.length) :
    (∃ v, RippleOsc.getAmplitude s = some v ∧ 0 ≤ v ∧ v ≤ 1) ∧
      (∃ w, RippleOsc.getAmplitudeMain s = some w ∧ 0 ≤ w ∧ w ≤ 3 / 2) ∧
      (∀ n, 1 ≤ n → n ≤ s.frequencyData.length →
        ∀ b ∈ RippleOsc.getFrequencyBands s n, ∃ v, b = some v ∧ 0 ≤ v ∧ v ≤ 1) := by
  have hlen : ((s.frequencyData.length : ℚ)) ≠ 0 := by
    exact_mod_cast Nat.one_le_iff_ne_zero.mp hL
  have hlenpos : (0 : ℚ) < (s.frequencyData.length : ℚ) := by
    exact_mod_cast Nat.lt_of_lt_of_le Nat.zero_lt_one hL
  refine ⟨?_, ?_, ?_⟩
  · -- part_000 amplitude
    have hb := RippleOsc.sum_clamped_bounds RippleOsc.normalizedBin
      (fun m => RippleOsc.clamp01_nonneg _) (fun m => RippleOsc.clamp01_le_one _)
      s.frequencyData
    refine ⟨min 1 ((s.frequencyData.map RippleOsc.normalizedBin).sum /
      s.frequencyData.length), ?_, ?_, min_le_left _ _⟩
    · simp [RippleOsc.getAmplitude, hA, RippleOsc.jsDiv, hlen]
    · exact le_min (by norm_num) (div_nonneg hb.1 hlenpos.le)
  · -- main.js amplitude
    have hb := RippleOsc.sum_clamped_bounds RippleOsc.normalizedBinMain
      (fun m => RippleOsc.clamp01_nonneg _) (fun m => RippleOsc.clamp01_le_one _)
      s.frequencyData
    set avg : ℚ := (s.frequencyData.map RippleOsc.normalizedBinMain).sum /
      s.frequencyData.length with havg
    have havg0 : 0 ≤ avg := div_nonneg hb.1 hlenpos.le
    have havg1 : avg ≤ 1 := (div_le_one hlenpos).mpr hb.2
    refine ⟨((avg : ℝ) ^ (0.8 : ℝ)) * 1.5, ?_, ?_, ?_⟩
    · simp [RippleOsc.getAmplitudeMain, hA, RippleOsc.jsDiv, hlen, havg]
    · positivity
    · have h1 : ((avg : ℚ) : ℝ) ^ (0.8 : ℝ) ≤ 1 :=
        Real.rpow_le_one (by exact_mod_cast havg0) (by exact_mod_cast havg1)
          (by norm_num)
      nlinarith [h1]
  · -- bands
    intro n hn hnL b hb
    rw [RippleOsc.getFrequencyBands, if_neg (by simp [hA]),
      RippleOsc.bandWindows_eq, List.map_map, List.mem_map] at hb
    obtain ⟨i, hi, rfl⟩ := hb
    have hspb : 1 ≤ s.frequencyData.length / n :=
      (Nat.one_le_div_iff (Nat.lt_of_lt_of_le Nat.zero_lt_one hn)).mpr hnL
    set spb : ℕ := s.frequencyData.length / n with hspbdef
    have hwidth : (i + 1) * spb - i * spb = spb := by
      rw [Nat.succ_mul]; omega
    have hwq : ((spb : ℚ)) ≠ 0 := by
      exact_mod_cast Nat.one_le_iff_ne_zero.mp hspb
    have hwqpos : (0 : ℚ) < (spb : ℚ) := by exact_mod_cast hspb
    set window : List ℚ := (s.frequencyData.drop (i * spb)).take spb with hwin
    have hsum := RippleOsc.sum_clamped_bounds RippleOsc.normalizedBin
      (fun m => RippleOsc.clamp01_nonneg _) (fun m => RippleOsc.clamp01_le_one _)
      window
    have hwl : (window.length : ℚ) ≤ (spb : ℚ) := by
      exact_mod_cast (hwin ▸ List.length_take_le spb _)
    refine ⟨(window.map RippleOsc.normalizedBin).sum / spb, ?_, ?_, ?_⟩
    · have hc : (((i + 1) * spb : ℕ) : ℚ) - ((i * spb : ℕ) : ℚ) = (spb : ℚ) := by
        push_cast; ring
      simp only [Function.comp, RippleOsc.bandValue, RippleOsc.jsDiv, hwidth, hwin]
      rw [hc, if_neg hwq]
    · exact div_nonneg hsum.1 hwqpos.le
    · exact (div_le_one hwqpos).mpr (le_trans hsum.2 hwl)

/-- Witness for C2's theorem: the active one-bin frame `[-50]`. -/
theorem features_bounded_witness :
    (∃ v, RippleOsc.getAmplitude ⟨true, [-50]⟩ = some v ∧ 0 ≤ v ∧ v ≤ 1) ∧
      (∃ w, RippleOsc.getAmplitudeMain ⟨true, [-50]⟩ = some w ∧ 0 ≤ w ∧ w ≤ 3 / 2) ∧
      (∀ n, 1 ≤ n → n ≤ (RippleOsc.AnalyzerState.mk true [-50]).frequencyData.length →
        ∀ b ∈ RippleOsc.getFrequencyBands ⟨true, [-50]⟩ n,
          ∃ v, b = some v ∧ 0 ≤ v ∧ v ≤ 1) :=
  features_bounded ⟨true, [-50]⟩ rfl (by simp)

/-- Claim C2 counterexample: on the active one-bin frame `[-30]` the
`main.js` amplitude is `pow(1, 0.8) * 1.5 = 1.5 ∉ [0,1]`. -/
theorem features_bounded_cex :
    RippleOsc.getAmplitudeMain ⟨true, [-30]⟩ = some (3 / 2) ∧
      ¬ ((3 / 2 : ℝ) ≤ 1) := by
  constructor
  · simp [RippleOsc.getAmplitudeMain, RippleOsc.jsDiv, RippleOsc.normalizedBinMain,
      RippleOsc.clamp01]
    norm_num [Real.one_rpow]
  · norm_num

/-- Claim C3 (code bug): the band divisor `end - start` is NOT guarded,
and a zero-length frame does NOT yield idle values.  With the analyzer
active: `bands(2)` on the one-bin frame `[-50]` has `samplesPerBand = 0`,
so both windows are empty and both divisions are `0/0 = NaN` (`none`);
`amplitude()` on a zero-length frame divides by `data.length = 0`,
yielding `NaN` (`none`), not the idle `0`; `bands(3)` on a zero-length
frame is all-`NaN`, not the idle `0.1`s. -/
theorem numeric_guards_missing :
    RippleOsc.getFrequencyBands ⟨true, [-50]⟩ 2 = [none, none] ∧
      RippleOsc.getAmplitude ⟨true, []⟩ = none ∧
      RippleOsc.getFrequencyBands ⟨true, []⟩ 3 = [none, none, none] := by
  refine ⟨?_, ?_, ?_⟩
  · simp [RippleOsc.getFrequencyBands, RippleOsc.bandWindows, RippleOsc.bandValue,
      RippleOsc.jsDiv, List.range_succ]
  · simp [RippleOsc.getAmplitude, RippleOsc.jsDiv]
  · simp [RippleOsc.getFrequencyBands, RippleOsc.bandWindows, RippleOsc.bandValue,
      RippleOsc.jsDiv, List.range_succ]

/-- Claim C4 (corrected): no setter clamps.  Each setter stores its raw
argument — whatever it is — into exactly its one field, leaving the
other four fields untouched. -/
theorem setters_store_raw (p : RippleOsc.Params) (v : ℚ) :
    ((RippleOsc.setAmplitude p v).amplitude = v ∧
      (RippleOsc.setAmplitude p v).frequency = p.frequency ∧
      (RippleOsc.setAmplitude p v).speed = p.speed ∧
      (RippleOsc.setAmplitude p v).hue = p.hue ∧
      (RippleOsc.setAmplitude p v).mode = p.mode) ∧
    ((RippleOsc.setFrequency p v).frequency = v ∧
      (RippleOsc.setFrequency p v).amplitude = p.amplitude ∧
      (RippleOsc.setFrequency p v).speed = p.speed ∧
      (RippleOsc.setFrequency p v).hue = p.hue ∧
      (RippleOsc.setFrequency p v).mode = p.mode) ∧
    ((RippleOsc.setSpeed p v).speed = v ∧
      (RippleOsc.setSpeed p v).amplitude = p.amplitude ∧
      (RippleOsc.setSpeed p v).frequency = p.frequency ∧
      (RippleOsc.setSpeed p v).hue = p.hue ∧
      (RippleOsc.setSpeed p v).mode = p.mode) ∧
    ((RippleOsc.setHue p v).hue = v ∧
      (RippleOsc.setHue p v).amplitude = p.amplitude ∧
      (RippleOsc.setHue p v).frequency = p.frequency ∧
      (RippleOsc.setHue p v).speed = p.speed ∧
      (RippleOsc.setHue p v).mode = p.mode) ∧
    ((RippleOsc.setMode p v).mode = v ∧
      (RippleOsc.setMode p v).amplitude = p.amplitude ∧
      (RippleOsc.setMode p v).frequency = p.frequency ∧
      (RippleOsc.setMode p v).speed = p.speed ∧
      (RippleOsc.setMode p v).hue = p.hue) := by
  refine ⟨⟨rfl, rfl, rfl, rfl, rfl⟩, ⟨rfl, rfl, rfl, rfl, rfl⟩,
    ⟨rfl, rfl, rfl, rfl, rfl⟩, ⟨rfl, rfl, rfl, rfl, rfl⟩,
    ⟨rfl, rfl, rfl, rfl, rfl⟩⟩

/-- Claim C4 counterexample: there is no bound at all on the stored
amplitude — for every candidate bound `B`, the input `|B| + 1` is
stored verbatim and exceeds it, so no bounded range contains every
stored value. -/
theorem setters_store_raw_cex :
    ¬ ∃ B : ℚ, ∀ v : ℚ,
      |(RippleOsc.setAmplitude RippleOsc.initParams v).amplitude| ≤ B := by
  rintro ⟨B, hB⟩
  have h := hB (|B| + 1)
  rw [RippleOsc.setAmplitude] at h
  simp only [abs_nonneg, abs_abs] at h
  have h1 : |(|B| + 1)| = |B| + 1 := abs_of_nonneg (by positivity)
  rw [h1] at h
  have h2 : B ≤ |B| := le_abs_self B
  linarith

/-- Claim C6 (confirmed): each frame the effective amplitude is
`amplitude * (0.5 + feature.amplitude * 1.5)`; for a feature amplitude
in `[0,1]` and a (nonnegative) base amplitude `A` it lies in
`[0.5·A, 2·A]`. -/
theorem effective_amplitude_bounds (A fa : ℚ) (hA : 0 ≤ A) (h0 : 0 ≤ fa)
    (h1 : fa ≤ 1) :
    RippleOsc.effectiveAmp A fa = A * (0.5 + fa * 1.5) ∧
      0.5 * A ≤ RippleOsc.effectiveAmp A fa ∧
      RippleOsc.effectiveAmp A fa ≤ 2 * A := by
  refine ⟨rfl, ?_, ?_⟩
  · rw [RippleOsc.effectiveAmp]; nlinarith
  · rw [RippleOsc.effectiveAmp]; nlinarith

/-- Witness for C6's theorem at `A = 1`, `feature.amplitude = 1/2`. -/
theorem effective_amplitude_bounds_witness :
    RippleOsc.effectiveAmp 1 (1 / 2) = 1 * (0.5 + (1 / 2) * 1.5) ∧
      0.5 * 1 ≤ RippleOsc.effectiveAmp 1 (1 / 2) ∧
      RippleOsc.effectiveAmp 1 (1 / 2) ≤ 2 * 1 :=
  effective_amplitude_bounds 1 (1 / 2) (by norm_num) (by norm_num) (by norm_num)

/-- Claim C7 (corrected): the payload is exactly 32 bytes — 8 scalars
of 4 bytes — serialized in the order `time, effective_amplitude,
frequency, speed, resolution.x, resolution.y, hue, mode`; but ALL eight
fields, `mode` included, are written as `f32` (one `Float32Array`). -/
theorem uniform_payload_layout (time eff freq speed resx resy hue mode : ℚ) :
    RippleOsc.uniformValues time eff freq speed resx resy hue mode
        = [time, eff, freq, speed, resx, resy, hue, mode] ∧
      RippleOsc.uniformKinds.length = 8 ∧
      RippleOsc.uniformKinds.length * RippleOsc.bytesPerScalar
        = RippleOsc.uniformBufferSize ∧
      RippleOsc.uniformKinds = List.replicate 8 RippleOsc.FieldKind.f32 :=
  ⟨rfl, by decide, by decide, rfl⟩

/-- Claim C7 counterexample: the serialized kind of the 8th field
(`mode`) is `f32`, not the `u32` the claim states, so the written
layout differs from the claimed one in its last field. -/
theorem uniform_payload_layout_cex :
    RippleOsc.uniformKinds ≠ RippleOsc.specUniformKinds ∧
      RippleOsc.uniformKinds.getLast? = some RippleOsc.FieldKind.f32 ∧
      RippleOsc.specUniformKinds.getLast? = some RippleOsc.FieldKind.u32 := by
  refine ⟨by decide, by decide, by decide⟩

/-- Claim C8 (confirmed): with no active capture, `getAmplitude`
returns exactly `0` (both variants) and `getFrequencyBands n` returns
exactly `n` copies of the idle constant `0.1`, whatever the buffer
contents — the getters are pure functions of the state, so every call
returns the same value. -/
theorem inactive_idle (s : RippleOsc.AnalyzerState) (n : ℕ)
    (h : s.isActive = false) :
    RippleOsc.getAmplitude s = some 0 ∧
      RippleOsc.getAmplitudeMain s = some 0 ∧
      RippleOsc.getFrequencyBands s n = List.replicate n (some (1 / 10)) := by
  refine ⟨?_, ?_, ?_⟩
  · rw [RippleOsc.getAmplitude, if_pos h]
  · rw [RippleOsc.getAmplitudeMain, if_pos h]
  · rw [RippleOsc.getFrequencyBands, if_pos h]

/-- Witness for C8's theorem: an inactive analyzer whose stale buffer
still holds data, `n = 3`. -/
theorem inactive_idle_witness :
    RippleOsc.getAmplitude ⟨false, [-50, -20]⟩ = some 0 ∧
      RippleOsc.getAmplitudeMain ⟨false, [-50, -20]⟩ = some 0 ∧
      RippleOsc.getFrequencyBands ⟨false, [-50, -20]⟩ 3
        = List.replicate 3 (some (1 / 10)) :=
  inactive_idle ⟨false, [-50, -20]⟩ 3 rfl

/-- Claim C9 (corrected): with the analyzer active, `bands(4)` on the
8-bin frame `[-100,-100,-100,-100,-10,-10,-10,-10]` yields exactly
`[0, 0, 0.9, 0.9]`.  The band normalization is `(d + 100) / 100` —
floor −100 but range 100, not the ceiling−floor range 90 — so a bin at
the −10 dB ceiling maps to `0.9`, not `1`. -/
theorem bands_scenario :
    RippleOsc.getFrequencyBands ⟨true, [-100, -100, -100, -100, -10, -10, -10, -10]⟩ 4
      = [some 0, some 0, some (9 / 10), some (9 / 10)] := by
  simp [RippleOsc.getFrequencyBands, RippleOsc.bandWindows, RippleOsc.bandValue,
    RippleOsc.jsDiv, RippleOsc.normalizedBin, RippleOsc.clamp01, List.range_succ]
  norm_num

/-- Claim C9 counterexample: the upper two bands come out at exactly
`0.9`, which misses the claimed value `1` by `0.1` — not an
approximation error (the values are exact rationals), so the frame
does not yield approximately `[0,0,1,1]` under any tolerance below
`0.1` (here checked at `0.05`). -/
theorem bands_scenario_cex :
    RippleOsc.getFrequencyBands ⟨true, [-100, -100, -100, -100, -10, -10, -10, -10]⟩ 4
        = [some 0, some 0, some (9 / 10), some (9 / 10)] ∧
      |(9 / 10 : ℚ) - 1| = 1 / 10 ∧ ¬ (|(9 / 10 : ℚ) - 1| ≤ 1 / 20) := by
  have habs : |(9 / 10 : ℚ) - 1| = 1 / 10 := by
    rw [show (9 / 10 : ℚ) - 1 = -(1 / 10) by norm_num, abs_neg]
    exact abs_of_nonneg (by norm_num)
  refine ⟨?_, habs, by rw [habs]; norm_num⟩
  simp [RippleOsc.getFrequencyBands, RippleOsc.bandWindows, RippleOsc.bandValue,
    RippleOsc.jsDiv, RippleOsc.normalizedBin, RippleOsc.clamp01, List.range_succ]
  norm_num

/-- Claim C10 (confirmed): in the inactive state `getFrequencyRanges`
returns exactly `{bass: 0, mid: 0, treble: 0}` on every call — its idle
value is `0`, distinct from the `0.1` idle constant that
`getFrequencyBands` returns when inactive. -/
theorem inactive_ranges_zero (s : RippleOsc.AnalyzerState) (n : ℕ)
    (h : s.isActive = false) :
    RippleOsc.getFrequencyRanges s = (some 0, some 0, some 0) ∧
      RippleOsc.getFrequencyBands s n = List.replicate n (some (1 / 10)) ∧
      (0 : ℚ) ≠ 1 / 10 := by
  refine ⟨?_, ?_, by norm_num⟩
  · rw [RippleOsc.getFrequencyRanges, if_pos h]
  · rw [RippleOsc.getFrequencyBands, if_pos h]

/-- Witness for C10's theorem: inactive analyzer with a stale buffer,
`n = 2`. -/
theorem inactive_ranges_zero_witness :
    RippleOsc.getFrequencyRanges ⟨false, [-40]⟩ = (some 0, some 0, some 0) ∧
      RippleOsc.getFrequencyBands ⟨false, [-40]⟩ 2
        = List.replicate 2 (some (1 / 10)) ∧
      (0 : ℚ) ≠ 1 / 10 :=
  inactive_ranges_zero ⟨false, [-40]⟩ 2 rfl

/-- Claim C5 (corrected): in `wave.wgsl` every mode outside `{0,…,4}`
takes the explicit `default` branch and the wave scalar equals the
mode-0 (Sine) result; but in the inline shader actually loaded by
`main.js` the switch has cases `0u`–`3u` only and its `default` holds
the SURFACE formula, so an out-of-range mode renders the mode-4
(Surface) wave, not Sine. -/
theorem wave_dispatch_default (m : ℕ) (hm : 5 ≤ m) (uv : ℝ × ℝ) (t freq amp : ℝ) :
    Wgsl.fsMainWave m uv t freq amp = Wgsl.fsMainWave 0 uv t freq amp ∧
      InlineShader.fsWave m uv t freq amp = InlineShader.fsWave 4 uv t freq amp := by
  obtain ⟨k, rfl⟩ : ∃ k, m = k + 5 := ⟨m - 5, by omega⟩
  exact ⟨rfl, rfl⟩

/-- Witness for C5's theorem at mode 7 and a concrete pixel. -/
theorem wave_dispatch_default_witness :
    Wgsl.fsMainWave 7 (1, 2) 3 1 1 = Wgsl.fsMainWave 0 (1, 2) 3 1 1 ∧
      InlineShader.fsWave 7 (1, 2) 3 1 1 = InlineShader.fsWave 4 (1, 2) 3 1 1 :=
  wave_dispatch_default 7 (by norm_num) (1, 2) 3 1 1

/-- Claim C5 counterexample: at `uv = (π/6, 0)`, `t = 0`, frequency 1,
amplitude 1, the inline shader's default branch (mode 5) evaluates to
`sin(π/2)·cos(0) = 1`, while its mode-0 Sine result is
`sin(π/2)·0.4 + sin(5π/6)·0.3 + sin(7π/6)·0.2 = 9/20` — the default is
not the Sine formula. -/
theorem wave_dispatch_default_cex :
    InlineShader.fsWave 5 (Real.pi / 6, 0) 0 1 1 = 1 ∧
      InlineShader.fsWave 0 (Real.pi / 6, 0) 0 1 1 = 9 / 20 ∧
      (1 : ℝ) ≠ 9 / 20 := by
  refine ⟨?_, ?_, by norm_num⟩
  · show InlineShader.waveFor 5 (Real.pi / 6, 0) 0 1 * 1 = 1
    show Real.sin (Real.pi / 6 * 1 * 3 + 0 * 2) * Real.cos (0 * 1 * 2 + 0) * 1 = 1
    rw [show Real.pi / 6 * 1 * 3 + 0 * 2 = Real.pi / 2 by ring,
      show (0 : ℝ) * 1 * 2 + 0 = 0 by ring, Real.sin_pi_div_two, Real.cos_zero]
    norm_num
  · show InlineShader.waveFor 0 (Real.pi / 6, 0) 0 1 * 1 = 9 / 20
    show (Real.sin (Real.pi / 6 * 1 * 3 + 0 * 2) * 0.4
        + Real.sin (Real.pi / 6 * 1 * 5 - 0 * 1.5) * 0.3
        + Real.sin (Real.pi / 6 * 1 * 7 + 0 * 2.5) * 0.2) * 1 = 9 / 20
    rw [show Real.pi / 6 * 1 * 3 + 0 * 2 = Real.pi / 2 by ring,
      show Real.pi / 6 * 1 * 5 - 0 * 1.5 = Real.pi - Real.pi / 6 by ring,
      show Real.pi / 6 * 1 * 7 + 0 * 2.5 = Real.pi / 6 + Real.pi by ring,
      Real.sin_pi_div_two, Real.sin_pi_sub, Real.sin_add_pi, Real.sin_pi_div_six]
    norm_num
